import Mathlib

/-!
Verification of the callback-request validator (`src/callbacks/handle_calls.py`).

The Python module defines a class `CallHandler` holding `current_time`,
`callback_time` and an `office_hours` table, with methods
`_standardise_datestring` (strptime-based parsing), `_is_during_accepted_window`
(lead-time window check), `_is_during_work_hours` (office-hours check) and the
public `request_callback`.

Embedding conventions:
* Python `datetime` values (microsecond resolution, proleptic Gregorian
  calendar, year 1 onward) are embedded as the record `DT` of calendar/time
  fields; instants are compared through `DT.totalUsec`, the count of
  microseconds since 0001-01-01T00:00, exactly mirroring `datetime.toordinal`
  arithmetic.  `timedelta.total_seconds()` and the float office-hour values are
  embedded in exact rational arithmetic.
* The state of a `CallHandler` object is passed explicitly: every method takes
  the record `CallHandler` and methods that in Python assign attributes return
  the updated record.  `dt.datetime.now()` inside `request_callback` is embedded
  as an explicit `now_clock` argument (clock injection), and the second clock
  read `self.current_time.today()` inside `_is_during_accepted_window`
  (Python `datetime.today()` is a live clock read) is modelled as equal to
  `current_time`, the value `request_callback` has just refreshed from the
  same clock.
* Each `raise ValueError(...)` site is embedded as a distinct constructor of
  `CallErr`; constructors carry the data interpolated into the message, and the
  full message string is kept where a claim refers to its content.
* `print` output is returned as a list of emitted lines.
-/

/-- A Python `datetime.datetime` value: proleptic Gregorian calendar fields
plus time-of-day fields at microsecond resolution.  Python guarantees
`1 <= year <= 9999`, `1 <= month <= 12`, `1 <= day <= daysInMonth`,
`hour <= 23`, `minute <= 59`, `second <= 59`, `usec <= 999999`; values
produced by the embedded parser satisfy these ranges. -/
structure DT where
  year : ℕ
  month : ℕ
  day : ℕ
  hour : ℕ
  minute : ℕ
  second : ℕ
  usec : ℕ
deriving DecidableEq, Repr

/-- Gregorian leap-year rule, as in CPython `datetime._is_leap`. -/
def isLeap (y : ℕ) : Bool :=
  y % 4 == 0 && (y % 100 != 0 || y % 400 == 0)

/-- Days in a month, as in CPython `datetime._days_in_month`. -/
def daysInMonth (y m : ℕ) : ℕ :=
  if m = 2 then (if isLeap y then 29 else 28)
  else if m = 4 ∨ m = 6 ∨ m = 9 ∨ m = 11 then 30
  else 31

/-- Days in all years before year `y`, as in CPython `datetime._days_before_year`. -/
def days_before_year (y : ℕ) : ℕ :=
  365 * (y - 1) + (y - 1) / 4 - (y - 1) / 100 + (y - 1) / 400

/-- Days in year `y` before month `m`, as in CPython `datetime._days_before_month`. -/
def days_before_month (y m : ℕ) : ℕ :=
  ((List.range (m - 1)).map (fun i => daysInMonth y (i + 1))).sum

/-- `datetime.toordinal()`: day number with 0001-01-01 as day 1. -/
def toOrdinal (y m d : ℕ) : ℕ :=
  days_before_year y + days_before_month y m + d

/-- Proleptic-Gregorian ordinal of the calendar date of `t`. -/
def DT.ordinal (t : DT) : ℕ := toOrdinal t.year t.month t.day

/-- Weekday of a day ordinal, Monday = 0 .. Sunday = 6; ordinal 1
(0001-01-01) is a Monday, as in Python `datetime.weekday()`. -/
def weekdayOfOrd (o : ℕ) : Fin 7 := ⟨(o + 6) % 7, Nat.mod_lt _ (by norm_num)⟩

/-- `datetime.weekday()` of `t`. -/
def DT.weekday (t : DT) : Fin 7 := weekdayOfOrd t.ordinal

/-- Microseconds elapsed from 0001-01-01T00:00:00.000000 to `t`;
the resolution of Python `datetime` subtraction. -/
def DT.totalUsec (t : DT) : ℤ :=
  (((t.ordinal - 1) * 86400 + t.hour * 3600 + t.minute * 60 + t.second : ℕ) : ℤ)
    * 1000000 + (t.usec : ℤ)

/-- `(d - now).total_seconds()` for the timedelta `d - now`, in exact
rational arithmetic (Python uses float; all quantities compared by the
source are exactly representable). -/
def total_seconds (u : ℤ) : ℚ := (u : ℚ) / 1000000

/-- The timedelta `standard_dt - current_time`, in microseconds. -/
def elapsed_usecs (now d : DT) : ℤ := d.totalUsec - now.totalUsec

/-- One entry of the `office_hours` dict: the Python two-element list
`[open, close]` where either element may be `None` (`[None, None]` marks a
non-working day). -/
abbrev OfficeEntry := Option ℚ × Option ℚ

/-- Python `None in [open, close]`. -/
def nonWorkingB (e : OfficeEntry) : Bool := e.1.isNone || e.2.isNone

/-- `calendar.day_abbr[w]` for `w = 0..6` (C locale). -/
def day_abbr (w : Fin 7) : String :=
  match w.val with
  | 0 => "Mon"
  | 1 => "Tue"
  | 2 => "Wed"
  | 3 => "Thu"
  | 4 => "Fri"
  | 5 => "Sat"
  | _ => "Sun"

/-- The default `office_hours` table built in `CallHandler.__init__`,
indexed by weekday number (Monday = 0). -/
def default_office_hours : Fin 7 → OfficeEntry := fun w =>
  match w.val with
  | 0 => (some 9, some 18)
  | 1 => (some 9, some 18)
  | 2 => (some 9, some 18)
  | 3 => (some 9, some 20)
  | 4 => (some 9, some 20)
  | 5 => (some 9, some (25 / 2))
  | _ => (none, none)

/-- The mutable attributes of a `CallHandler` instance. -/
structure CallHandler where
  current_time : DT
  callback_time : DT
  office_hours : Fin 7 → OfficeEntry

/-- `CallHandler.__init__(now)`: both datetime attributes start at `now`,
office hours at the default table. -/
def CallHandler.init (now : DT) : CallHandler :=
  { current_time := now, callback_time := now, office_hours := default_office_hours }

/-- One constructor per `raise ValueError(...)` site of the source, carrying
the data interpolated into the message.  `formatError` keeps the whole
message because the spec constrains its text. -/
inductive CallErr where
  | formatError (msg : String)
  | pastRequest (t : DT)
  | tooSoon (t : DT)
  | tooLate (t : DT) (maxDays : ℤ)
  | nonWorkingDay (day : String)
  | outsideHours (day : String) (hours : OfficeEntry)
deriving DecidableEq, Repr

/-- Python `int(q)` on a real value: truncation toward zero. -/
def pyInt (q : ℚ) : ℤ := q.num.tdiv (q.den : ℤ)

/-! ## `_standardise_datestring`: CPython `strptime` for format `%Y-%m-%dT%H:%M`

CPython `_strptime` compiles the format to the case-insensitive regex
`(?P<Y>\d\d\d\d)\-(?P<m>1[0-2]|0[1-9]|[1-9])\-(?P<d>3[01]|[12]\d|0[1-9]|[1-9])T(?P<H>2[0-3]|[0-1]\d|\d)\:(?P<M>[0-5]\d|\d)`,
matches it at the start of the string, and raises `ValueError` when it does
not match or when unconverted data remains; building the `datetime` then
validates the day against the month length (and the year range).  The lexer
below lists the alternatives of each group in the order the regex tries
them, and `List.findSome?` realises the regex backtracking order. -/

/-- Numeric value of a decimal digit character, if it is one. -/
def digitVal (c : Char) : Option ℕ :=
  if '0' ≤ c ∧ c ≤ '9' then some (c.toNat - 48) else none

/-- Exactly four decimal digits: the regex group for `%Y`. -/
def year4 : List Char → Option (ℕ × List Char)
  | a :: b :: c :: d :: rest => do
      let x ← digitVal a
      let y ← digitVal b
      let z ← digitVal c
      let w ← digitVal d
      pure (1000 * x + 100 * y + 10 * z + w, rest)
  | _ => none

/-- One literal character. -/
def expectChar (c : Char) : List Char → Option (List Char)
  | x :: rest => if x = c then some rest else none
  | _ => none

/-- The literal `T` of the format; CPython compiles the format with
`re.IGNORECASE`, so a lowercase `t` is accepted too. -/
def expectT : List Char → Option (List Char)
  | x :: rest => if x = 'T' ∨ x = 't' then some rest else none
  | _ => none

/-- Candidates of the `%m` group `1[0-2]|0[1-9]|[1-9]`, in alternation order. -/
def monthCands (cs : List Char) : List (ℕ × List Char) :=
  (match cs with
   | a :: b :: rest =>
       (if a = '1' ∧ '0' ≤ b ∧ b ≤ '2' then [(10 + (b.toNat - 48), rest)] else []) ++
       (if a = '0' ∧ '1' ≤ b ∧ b ≤ '9' then [(b.toNat - 48, rest)] else [])
   | _ => []) ++
  (match cs with
   | a :: rest => if '1' ≤ a ∧ a ≤ '9' then [(a.toNat - 48, rest)] else []
   | _ => [])

/-- Candidates of the `%d` group `3[01]|[12]\d|0[1-9]|[1-9]`, in alternation order. -/
def dayCands (cs : List Char) : List (ℕ × List Char) :=
  (match cs with
   | a :: b :: rest =>
       (if a = '3' ∧ '0' ≤ b ∧ b ≤ '1' then [(30 + (b.toNat - 48), rest)] else []) ++
       (if ('1' ≤ a ∧ a ≤ '2') ∧ '0' ≤ b ∧ b ≤ '9'
        then [(10 * (a.toNat - 48) + (b.toNat - 48), rest)] else []) ++
       (if a = '0' ∧ '1' ≤ b ∧ b ≤ '9' then [(b.toNat - 48, rest)] else [])
   | _ => []) ++
  (match cs with
   | a :: rest => if '1' ≤ a ∧ a ≤ '9' then [(a.toNat - 48, rest)] else []
   | _ => [])

/-- Candidates of the `%H` group `2[0-3]|[0-1]\d|\d`, in alternation order. -/
def hourCands (cs : List Char) : List (ℕ × List Char) :=
  (match cs with
   | a :: b :: rest =>
       (if a = '2' ∧ '0' ≤ b ∧ b ≤ '3' then [(20 + (b.toNat - 48), rest)] else []) ++
       (if ('0' ≤ a ∧ a ≤ '1') ∧ '0' ≤ b ∧ b ≤ '9'
        then [(10 * (a.toNat - 48) + (b.toNat - 48), rest)] else [])
   | _ => []) ++
  (match cs with
   | a :: rest => if '0' ≤ a ∧ a ≤ '9' then [(a.toNat - 48, rest)] else []
   | _ => [])

/-- Candidates of the `%M` group `[0-5]\d|\d`, in alternation order. -/
def minuteCands (cs : List Char) : List (ℕ × List Char) :=
  (match cs with
   | a :: b :: rest =>
       if ('0' ≤ a ∧ a ≤ '5') ∧ '0' ≤ b ∧ b ≤ '9'
       then [(10 * (a.toNat - 48) + (b.toNat - 48), rest)] else []
   | _ => []) ++
  (match cs with
   | a :: rest => if '0' ≤ a ∧ a ≤ '9' then [(a.toNat - 48, rest)] else []
   | _ => [])

/-- Full match of the compiled regex for `%Y-%m-%dT%H:%M` against `s`
(including the "unconverted data remains" check), returning the captured
`(year, month, day, hour, minute)` of the first successful backtracking
branch. -/
def lexYmdHM (s : String) : Option (ℕ × ℕ × ℕ × ℕ × ℕ) :=
  (year4 s.toList).bind fun (y, r1) =>
  (expectChar '-' r1).bind fun r2 =>
  (monthCands r2).findSome? fun (mo, r3) =>
  (expectChar '-' r3).bind fun r4 =>
  (dayCands r4).findSome? fun (dy, r5) =>
  (expectT r5).bind fun r6 =>
  (hourCands r6).findSome? fun (hr, r7) =>
  (expectChar ':' r7).bind fun r8 =>
  (minuteCands r8).findSome? fun (mi, r9) =>
  if r9 = [] then some (y, mo, dy, hr, mi) else none

/-- The range checks the `datetime` constructor performs on the captured
fields (`MINYEAR <= year <= MAXYEAR`, month, day-in-month, hour, minute). -/
def validFields (f : ℕ × ℕ × ℕ × ℕ × ℕ) : Bool :=
  decide (1 ≤ f.1 ∧ f.1 ≤ 9999 ∧ 1 ≤ f.2.1 ∧ f.2.1 ≤ 12 ∧
    1 ≤ f.2.2.1 ∧ f.2.2.1 ≤ daysInMonth f.1 f.2.1 ∧
    f.2.2.2.1 ≤ 23 ∧ f.2.2.2.2 ≤ 59)

/-- `datetime.strptime(s, "%Y-%m-%dT%H:%M")`: `none` embeds the
`ValueError` branch.  Fields the format does not set (second, microsecond)
are zero. -/
def strptimeYmdHM (s : String) : Option DT :=
  (lexYmdHM s).bind fun f =>
    if validFields f
    then some ⟨f.1, f.2.1, f.2.2.1, f.2.2.2.1, f.2.2.2.2, 0, 0⟩
    else none

/-- The default value of the `form` argument of `_standardise_datestring`. -/
def expected_form : String := "%Y-%m-%dT%H:%M"

/-- `CallHandler._standardise_datestring(user_datestring)` at the default
format, with the object state passed through explicitly (the method reads
and writes no attribute).  The error message is the one raised:
`f"Bad date: \x7buser_datestring\x7d\n Did you use format: \x7bform\x7d"`. -/
def standardise_datestring (h : CallHandler) (user_datestring : String) :
    CallHandler × Except CallErr DT :=
  (h, match strptimeYmdHM user_datestring with
      | some standard_date => .ok standard_date
      | none => .error (.formatError
          ("Bad date: " ++ user_datestring ++ "\n Did you use format: " ++ expected_form)))

/-! ## `_is_during_accepted_window` -/

/-- Length of `pd.date_range(start=current_time, end=standard_dt).tolist()`:
daily timestamps `start, start + 1 day, ...` while not exceeding `end`
(empty when `end < start`). -/
def date_range_len (now d : DT) : ℕ :=
  if elapsed_usecs now d < 0 then 0
  else (elapsed_usecs now d).toNat / 86400000000 + 1

/-- The `n_hols` sum of the source: how many entries of the date range have
a weekday whose `office_hours` entry contains `None`.  The entry `k` days
after `start` falls on calendar day `start.ordinal + k`. -/
def n_hols (oh : Fin 7 → OfficeEntry) (now d : DT) : ℕ :=
  ((List.range (date_range_len now d)).filter
    (fun k => nonWorkingB (oh (weekdayOfOrd (now.ordinal + k))))).length

/-- `CallHandler._is_during_accepted_window(standard_dt, min_hours, max_hours)`.
Reads `current_time` and `office_hours`; raises are embedded as `.error`:
past request, too soon, too late (in that order), else returns `None`.
The live `today()` read is modelled as `current_time` (see the header). -/
def is_during_accepted_window (h : CallHandler) (standard_dt : DT)
    (min_hours max_hours : ℚ) : Except CallErr Unit :=
  let delta_secs := total_seconds (elapsed_usecs h.current_time standard_dt)
  if delta_secs < 0 then .error (.pastRequest standard_dt)
  else if delta_secs / 3600 < min_hours then .error (.tooSoon standard_dt)
  else
    let hols := n_hols h.office_hours h.current_time standard_dt
    let delta_sec := delta_secs - (hols : ℚ) / 86400
    if delta_sec > max_hours * 3600
    then .error (.tooLate standard_dt (pyInt (max_hours / 24)))
    else .ok ()

/-! ## `_is_during_work_hours` -/

/-- `float(standard_dt.hour + (standard_dt.minute / 60))`. -/
def requested_time_of (d : DT) : ℚ := (d.hour : ℚ) + (d.minute : ℚ) / 60

/-- `CallHandler._is_during_work_hours(standard_dt)`.  Reads `office_hours`
only.  Raises on a day whose entry contains `None`, then on a requested
time below the open hour or at/after the close hour. -/
def is_during_work_hours (h : CallHandler) (standard_dt : DT) : Except CallErr Unit :=
  let requested_day := standard_dt.weekday
  match h.office_hours requested_day with
  | (some openH, some closeH) =>
      if requested_time_of standard_dt < openH ∨ requested_time_of standard_dt ≥ closeH
      then .error (.outsideHours (day_abbr requested_day) (some openH, some closeH))
      else .ok ()
  | _ => .error (.nonWorkingDay (day_abbr requested_day))

/-! ## `request_callback` -/

/-- `CallHandler.request_callback(datestring)`: parse, refresh
`current_time` from the clock (`now_clock` embeds `dt.datetime.now()`),
store `callback_time`, run the two checks, and on success print the
confirmation and return the standardised date.  The returned triple is
(object state after the call, printed lines, return value or raised error). -/
def request_callback (h : CallHandler) (now_clock : DT) (datestring : String) :
    CallHandler × List String × Except CallErr DT :=
  match standardise_datestring h datestring with
  | (h0, .error e) => (h0, [], .error e)
  | (h0, .ok standard_date) =>
    let h1 := { h0 with current_time := now_clock, callback_time := standard_date }
    match is_during_accepted_window h1 standard_date 2 144 with
    | .error e => (h1, [], .error e)
    | .ok _ =>
      match is_during_work_hours h1 standard_date with
      | .error e => (h1, [], .error e)
      | .ok _ =>
        (h1, ["Your appointment is booked for " ++ datestring], .ok standard_date)

/-! ## Definitions used by the claim statements -/

/-- Following the wording of the spec for the window check: the number of
calendar days in the inclusive date range from the calendar date of `now`
to the calendar date of `req` whose weekday has no configured office
hours.  Stated for comparison with the `n_hols` count the source actually
computes, which steps in whole days from the full timestamp `now`. -/
def nonWorkingCalendarDays (oh : Fin 7 → OfficeEntry) (now req : DT) : ℕ :=
  ((List.range (req.ordinal - now.ordinal + 1)).filter
    (fun k => nonWorkingB (oh (weekdayOfOrd (now.ordinal + k))))).length

instance {e a : Type} [DecidableEq e] [DecidableEq a] : DecidableEq (Except e a) := fun x y =>
  match x, y with
  | .ok u, .ok v =>
      if h : u = v then .isTrue (congrArg Except.ok h)
      else .isFalse (fun he => h (Except.ok.inj he))
  | .error u, .error v =>
      if h : u = v then .isTrue (congrArg Except.error h)
      else .isFalse (fun he => h (Except.error.inj he))
  | .ok _, .error _ => .isFalse (fun he => Except.noConfusion he)
  | .error _, .ok _ => .isFalse (fun he => Except.noConfusion he)

/-- Monday 2024-04-01 12:00, a reference clock value for concrete checks. -/
def wNow : DT := ⟨2024, 4, 1, 12, 0, 0, 0⟩

/-- Tuesday 2024-04-02 12:00, the instant parsed from `"2024-04-02T12:00"`. -/
def wTue : DT := ⟨2024, 4, 2, 12, 0, 0, 0⟩

/-- Monday 2024-04-01 14:00: exactly two hours after `wNow`. -/
def wMin : DT := ⟨2024, 4, 1, 14, 0, 0, 0⟩

/-- Monday 2024-04-01 13:59:59: one second less than two hours after `wNow`. -/
def wMin1 : DT := ⟨2024, 4, 1, 13, 59, 59, 0⟩

/-- Monday 2024-04-08 12:00: seven days after `wNow`. -/
def wLate : DT := ⟨2024, 4, 8, 12, 0, 0, 0⟩

/-- Monday 2024-01-01 00:00 (the clock of the spec example for a past request). -/
def pNow : DT := ⟨2024, 1, 1, 0, 0, 0, 0⟩

/-- Sunday 2023-12-31 09:00, the instant parsed from `"2023-12-31T09:00"`. -/
def pPast : DT := ⟨2023, 12, 31, 9, 0, 0, 0⟩

/-- Sunday 2024-03-31 23:59:59.999983: a clock reading 17 microseconds
before Monday midnight, as `datetime.now()` routinely produces. -/
def ceNow : DT := ⟨2024, 3, 31, 23, 59, 59, 999983⟩

/-- Sunday 2024-04-07 00:00: exactly 6 days and 17 microseconds after `ceNow`. -/
def ceReq : DT := ⟨2024, 4, 7, 0, 0, 0, 0⟩

/-- Sunday 2024-03-31 09:00, the instant parsed from `"2024-03-31T09:00"`. -/
def c6Req : DT := ⟨2024, 3, 31, 9, 0, 0, 0⟩

/-- Friday 2024-04-05 12:00, a clock value 45 hours before `wSun`. -/
def wFri : DT := ⟨2024, 4, 5, 12, 0, 0, 0⟩

/-- Sunday 2024-04-07 09:00, the instant parsed from `"2024-04-07T09:00"`. -/
def wSun : DT := ⟨2024, 4, 7, 9, 0, 0, 0⟩

/-! ## Theorems -/

/-- Helper: the `int(max_hours / 24)` of the message at the default
`max_hours = 144.0` is `6`. -/
theorem pyInt_default_max : pyInt (144 / 24 : ℚ) = 6 := by with_unfolding_all rfl

/-- C3: `_is_during_accepted_window` evaluates its three failure conditions
in fixed priority order: past first, then too short (only if the past check
passed), and only if both passed is the too-long condition evaluated, which
alone then decides between `LeadTimeTooLongError` and normal return. -/
theorem accepted_window_priority (h : CallHandler) (standard_dt : DT)
    (min_hours max_hours : ℚ) :
    (total_seconds (elapsed_usecs h.current_time standard_dt) < 0 →
      is_during_accepted_window h standard_dt min_hours max_hours
        = .error (.pastRequest standard_dt)) ∧
    (¬ total_seconds (elapsed_usecs h.current_time standard_dt) < 0 →
      total_seconds (elapsed_usecs h.current_time standard_dt) / 3600 < min_hours →
      is_during_accepted_window h standard_dt min_hours max_hours
        = .error (.tooSoon standard_dt)) ∧
    (¬ total_seconds (elapsed_usecs h.current_time standard_dt) < 0 →
      ¬ total_seconds (elapsed_usecs h.current_time standard_dt) / 3600 < min_hours →
      is_during_accepted_window h standard_dt min_hours max_hours
        = (if total_seconds (elapsed_usecs h.current_time standard_dt)
              - (n_hols h.office_hours h.current_time standard_dt : ℚ) / 86400
              > max_hours * 3600
           then .error (.tooLate standard_dt (pyInt (max_hours / 24)))
           else .ok ())) := by
  refine ⟨fun h1 => ?_, fun h1 h2 => ?_, fun h1 h2 => ?_⟩
  · simp only [is_during_accepted_window]
    rw [if_pos h1]
  · simp only [is_during_accepted_window]
    rw [if_neg h1, if_pos h2]
  · simp only [is_during_accepted_window]
    rw [if_neg h1, if_neg h2]

/-- C3 witness: with the clock at 2024-01-01T00:00, the requested instant
2023-12-31T09:00 is in the past and the check fails with the past error. -/
theorem accepted_window_priority_witness :
    is_during_accepted_window (CallHandler.init pNow) pPast 2 144
      = .error (.pastRequest pPast) :=
  (accepted_window_priority (CallHandler.init pNow) pPast 2 144).1
    (by with_unfolding_all rfl)

/-- C4: the minimum-lead boundary is inclusive.  A requested instant
exactly `min_hours` after the clock can never produce the too-soon error,
while an instant one second less than `min_hours` after the clock (still
in the future) always does. -/
theorem min_lead_boundary (h : CallHandler) (d1 d2 : DT) (min_hours max_hours : ℚ)
    (hexact : total_seconds (elapsed_usecs h.current_time d1) = min_hours * 3600)
    (hless : total_seconds (elapsed_usecs h.current_time d2) = min_hours * 3600 - 1)
    (hnn : 1 ≤ min_hours * 3600) :
    (∀ t, is_during_accepted_window h d1 min_hours max_hours ≠ .error (.tooSoon t)) ∧
    is_during_accepted_window h d2 min_hours max_hours = .error (.tooSoon d2) := by
  have h0 : (0 : ℚ) < 3600 := by norm_num
  constructor
  · intro t
    have h1 : ¬ total_seconds (elapsed_usecs h.current_time d1) < 0 := by
      rw [hexact]; linarith
    have h2 : ¬ total_seconds (elapsed_usecs h.current_time d1) / 3600 < min_hours := by
      rw [hexact, not_lt, le_div_iff₀ h0]
    simp only [is_during_accepted_window]
    rw [if_neg h1, if_neg h2]
    split_ifs <;> simp
  · have h1 : ¬ total_seconds (elapsed_usecs h.current_time d2) < 0 := by
      rw [hless]; linarith
    have h2 : total_seconds (elapsed_usecs h.current_time d2) / 3600 < min_hours := by
      rw [hless, div_lt_iff₀ h0]; linarith
    simp only [is_during_accepted_window]
    rw [if_neg h1, if_pos h2]

/-- C4 witness: with the clock at 2024-04-01T12:00 and the default
`min_hours = 2`, the instant 2024-04-01T13:59:59 (one second short of two
hours) triggers the too-soon error, while 2024-04-01T14:00 does not (the
theorem applied here also proves the exact-boundary half). -/
theorem min_lead_boundary_witness :
    is_during_accepted_window (CallHandler.init wNow) wMin1 2 144
      = .error (.tooSoon wMin1) :=
  (min_lead_boundary (CallHandler.init wNow) wMin wMin1 2 144
    (by with_unfolding_all rfl) (by with_unfolding_all rfl) (by norm_num)).2

/-- C2 (amended): under the minimum-lead hypothesis, the too-long check of
`_is_during_accepted_window` at the default bounds fails exactly when
`elapsedSeconds - n_hols / 86400 > max_hours * 3600`, where `n_hols` counts
the non-working weekdays among the daily timestamps `now, now + 1 day, ...`
up to `requested` (pandas `date_range` keeps the time of day of `now`; the
count is over those timestamps, not over the calendar dates); otherwise the
check returns normally. -/
theorem accepted_window_max_lead (h : CallHandler) (standard_dt : DT)
    (hmin : 2 * 3600 ≤ total_seconds (elapsed_usecs h.current_time standard_dt)) :
    (is_during_accepted_window h standard_dt 2 144
        = .error (.tooLate standard_dt 6) ↔
      total_seconds (elapsed_usecs h.current_time standard_dt)
        - (n_hols h.office_hours h.current_time standard_dt : ℚ) / 86400
        > 144 * 3600) ∧
    (is_during_accepted_window h standard_dt 2 144 = .ok () ↔
      ¬ (total_seconds (elapsed_usecs h.current_time standard_dt)
        - (n_hols h.office_hours h.current_time standard_dt : ℚ) / 86400
        > 144 * 3600)) := by
  have h0 : (0 : ℚ) < 3600 := by norm_num
  have h1 : ¬ total_seconds (elapsed_usecs h.current_time standard_dt) < 0 := by
    linarith
  have h2 : ¬ total_seconds (elapsed_usecs h.current_time standard_dt) / 3600 < 2 := by
    rw [not_lt, le_div_iff₀ h0]; linarith
  simp only [is_during_accepted_window]
  rw [if_neg h1, if_neg h2, pyInt_default_max]
  constructor
  · split_ifs with hc <;> simp [hc]
  · split_ifs with hc <;> simp [hc]

/-- C2 counterexample: with the clock 17 microseconds before Monday
midnight (a Sunday) and the request exactly 6 days later at Sunday
midnight, the minimum-lead hypothesis of the claim holds, the
effective elapsed seconds computed per the claim (calendar-date count of
non-working days: both Sundays, so 2) do NOT exceed `144 * 3600`, yet the
code raises the too-long error, because its own count over day-stepped
timestamps sees only one Sunday. -/
theorem accepted_window_max_lead_counterexample :
    2 * 3600 ≤ total_seconds (elapsed_usecs ceNow ceReq) ∧
    nonWorkingCalendarDays default_office_hours ceNow ceReq = 2 ∧
    ¬ (total_seconds (elapsed_usecs ceNow ceReq)
        - (nonWorkingCalendarDays default_office_hours ceNow ceReq : ℚ) / 86400
        > 144 * 3600) ∧
    is_during_accepted_window (CallHandler.init ceNow) ceReq 2 144
      = .error (.tooLate ceReq 6) :=
  ⟨by with_unfolding_all rfl, by with_unfolding_all rfl,
   by with_unfolding_all decide, by with_unfolding_all rfl⟩

/-- C2 witness: with the clock at Monday 2024-04-01T12:00 and the request
seven days later, the elapsed time minus the one non-working day fraction
exceeds the six-day bound and the amended theorem yields the too-long
error. -/
theorem accepted_window_max_lead_witness :
    is_during_accepted_window (CallHandler.init wNow) wLate 2 144
      = .error (.tooLate wLate 6) :=
  (accepted_window_max_lead (CallHandler.init wNow) wLate
    (by with_unfolding_all decide)).1.mpr (by with_unfolding_all decide)

/-- C5: `_is_during_work_hours` fails with the non-working-day error
exactly when the entry for the requested weekday contains `None`; when the
entry is a proper pair it fails with the outside-hours error exactly when
the fractional hour is below the open hour or at/after the close hour (so
the open boundary is accepted and closing time is rejected), and returns
normally in all remaining cases. -/
theorem work_hours_spec (h : CallHandler) (standard_dt : DT) :
    (is_during_work_hours h standard_dt
        = .error (.nonWorkingDay (day_abbr standard_dt.weekday)) ↔
      ((h.office_hours standard_dt.weekday).1 = none ∨
       (h.office_hours standard_dt.weekday).2 = none)) ∧
    (∀ openH closeH, h.office_hours standard_dt.weekday = (some openH, some closeH) →
      ((is_during_work_hours h standard_dt
          = .error (.outsideHours (day_abbr standard_dt.weekday) (some openH, some closeH)) ↔
        (requested_time_of standard_dt < openH ∨
         requested_time_of standard_dt ≥ closeH)) ∧
       (is_during_work_hours h standard_dt = .ok () ↔
        (openH ≤ requested_time_of standard_dt ∧
         requested_time_of standard_dt < closeH)))) := by
  rcases he : h.office_hours standard_dt.weekday with ⟨o, c⟩
  constructor
  · cases o <;> cases c <;> simp [is_during_work_hours, he]
    split_ifs <;> simp
  · intro openH closeH he2
    injection he2 with h1 h2
    subst h1
    subst h2
    have hred : is_during_work_hours h standard_dt
        = if requested_time_of standard_dt < openH ∨ requested_time_of standard_dt ≥ closeH
          then .error (.outsideHours (day_abbr standard_dt.weekday) (some openH, some closeH))
          else .ok () := by
      simp [is_during_work_hours, he]
    by_cases hcond : requested_time_of standard_dt < openH ∨ requested_time_of standard_dt ≥ closeH
    · rw [hred, if_pos hcond]
      refine ⟨iff_of_true rfl hcond, iff_of_false (by simp) ?_⟩
      rcases hcond with h1 | h1
      · exact fun hx => absurd h1 (not_lt.mpr hx.1)
      · exact fun hx => absurd hx.2 (not_lt.mpr h1)
    · rw [hred, if_neg hcond]
      refine ⟨iff_of_false (by simp) hcond, iff_of_true rfl ?_⟩
      push_neg at hcond
      exact hcond

/-- C5 witness: Tuesday 2024-04-02 12:00 has the entry (9, 18) in the
default table, noon is inside the interval, and the check returns
normally. -/
theorem work_hours_spec_witness :
    is_during_work_hours (CallHandler.init wNow) wTue = .ok () :=
  (((work_hours_spec (CallHandler.init wNow) wTue).2 9 18
    (by with_unfolding_all rfl)).2).mpr (by with_unfolding_all decide)

/-- C1: for every input string parsed by the expected format whose instant
lies strictly between 2 and 144 hours after the clock, falls on a weekday
with a configured open/close pair, and whose fractional hour is at least
the open hour and below the close hour, `request_callback` returns exactly
the parsed instant and prints a confirmation containing the original
text. -/
theorem request_callback_success (h : CallHandler) (now_clock : DT) (s : String)
    (standard_date : DT) (openH closeH : ℚ)
    (hparse : strptimeYmdHM s = some standard_date)
    (hlow : 2 * 3600 < total_seconds (elapsed_usecs now_clock standard_date))
    (hhigh : total_seconds (elapsed_usecs now_clock standard_date) < 144 * 3600)
    (hday : h.office_hours standard_date.weekday = (some openH, some closeH))
    (hopen : openH ≤ requested_time_of standard_date)
    (hclose : requested_time_of standard_date < closeH) :
    request_callback h now_clock s
      = ({ h with current_time := now_clock, callback_time := standard_date },
         ["Your appointment is booked for " ++ s], .ok standard_date) ∧
    ∃ pre post, "Your appointment is booked for " ++ s = pre ++ s ++ post := by
  have h0 : (0 : ℚ) < 3600 := by norm_num
  have hwin : is_during_accepted_window
      { h with current_time := now_clock, callback_time := standard_date }
      standard_date 2 144 = .ok () := by
    have h1 : ¬ total_seconds (elapsed_usecs now_clock standard_date) < 0 := by linarith
    have h2 : ¬ total_seconds (elapsed_usecs now_clock standard_date) / 3600 < 2 := by
      rw [not_lt, le_div_iff₀ h0]; linarith
    have h3 : ¬ (total_seconds (elapsed_usecs now_clock standard_date)
        - (n_hols h.office_hours now_clock standard_date : ℚ) / 86400 > 144 * 3600) := by
      have hn : (0 : ℚ) ≤ (n_hols h.office_hours now_clock standard_date : ℚ) / 86400 := by
        positivity
      linarith
    simp only [is_during_accepted_window]
    rw [if_neg h1, if_neg h2, if_neg h3]
  have hwork : is_during_work_hours
      { h with current_time := now_clock, callback_time := standard_date }
      standard_date = .ok () := by
    have hred : is_during_work_hours
        { h with current_time := now_clock, callback_time := standard_date }
        standard_date
        = if requested_time_of standard_date < openH ∨ requested_time_of standard_date ≥ closeH
          then .error (.outsideHours (day_abbr standard_date.weekday) (some openH, some closeH))
          else .ok () := by
      simp [is_during_work_hours, hday]
    rw [hred, if_neg (not_or.mpr ⟨not_lt.mpr hopen, not_le.mpr hclose⟩)]
  refine ⟨?_, "Your appointment is booked for ", "", ?_⟩
  · simp only [request_callback, standardise_datestring, hparse, hwin, hwork]
  · simp

/-- C1 witness: at the Monday-noon clock `wNow`, the request
`"2024-04-02T12:00"` (Tuesday noon, 24 hours ahead) is accepted, the
parsed instant is returned and the confirmation is printed. -/
theorem request_callback_success_witness :
    request_callback (CallHandler.init wNow) wNow "2024-04-02T12:00"
      = ({ CallHandler.init wNow with current_time := wNow, callback_time := wTue },
         ["Your appointment is booked for " ++ "2024-04-02T12:00"], .ok wTue) ∧
    ∃ pre post, "Your appointment is booked for " ++ "2024-04-02T12:00"
      = pre ++ "2024-04-02T12:00" ++ post :=
  request_callback_success (CallHandler.init wNow) wNow "2024-04-02T12:00" wTue 9 18
    (by with_unfolding_all rfl) (by with_unfolding_all decide)
    (by with_unfolding_all decide) (by with_unfolding_all rfl)
    (by with_unfolding_all decide) (by with_unfolding_all decide)

/-- C6 counterexample: `"2024-03-31T09:00"` parses to a Sunday (a day with
no office hours in the default table), but with the clock at Monday
2024-04-01T12:00 the instant is in the past, and `request_callback` fails
with the past-request error, not the non-working-day error: when a
lead-time check fails, that error is raised first. -/
theorem request_nonworking_counterexample :
    strptimeYmdHM "2024-03-31T09:00" = some c6Req ∧
    nonWorkingB ((CallHandler.init wNow).office_hours c6Req.weekday) = true ∧
    (request_callback (CallHandler.init wNow) wNow "2024-03-31T09:00").2.2
      = .error (.pastRequest c6Req) ∧
    (request_callback (CallHandler.init wNow) wNow "2024-03-31T09:00").2.2
      ≠ .error (.nonWorkingDay (day_abbr c6Req.weekday)) :=
  ⟨by with_unfolding_all rfl, by with_unfolding_all rfl,
   by with_unfolding_all rfl, by with_unfolding_all decide⟩

/-- C6 (amended): for every valid-format input whose instant falls on a
weekday with no configured office hours, `request_callback` fails with the
non-working-day error provided the lead-time window check passes (when a
lead-time check fails instead, its error takes precedence, as the window
check runs first). -/
theorem request_nonworking_day (h : CallHandler) (now_clock : DT) (s : String)
    (standard_date : DT)
    (hparse : strptimeYmdHM s = some standard_date)
    (hnw : nonWorkingB (h.office_hours standard_date.weekday) = true)
    (hwin : is_during_accepted_window
        { h with current_time := now_clock, callback_time := standard_date }
        standard_date 2 144 = .ok ()) :
    request_callback h now_clock s
      = ({ h with current_time := now_clock, callback_time := standard_date }, [],
         .error (.nonWorkingDay (day_abbr standard_date.weekday))) := by
  have hwork : is_during_work_hours
      { h with current_time := now_clock, callback_time := standard_date }
      standard_date
      = .error (.nonWorkingDay (day_abbr standard_date.weekday)) := by
    rcases he : h.office_hours standard_date.weekday with ⟨o, c⟩
    rw [he] at hnw
    cases o <;> cases c <;> simp_all [is_during_work_hours, nonWorkingB]
  simp only [request_callback, standardise_datestring, hparse, hwin, hwork]

/-- C6 witness: with the clock at Friday 2024-04-05T12:00, the request
`"2024-04-07T09:00"` (Sunday, 45 hours ahead, inside the window) fails
with the non-working-day error. -/
theorem request_nonworking_day_witness :
    request_callback (CallHandler.init wFri) wFri "2024-04-07T09:00"
      = ({ CallHandler.init wFri with current_time := wFri, callback_time := wSun }, [],
         .error (.nonWorkingDay (day_abbr wSun.weekday))) :=
  request_nonworking_day (CallHandler.init wFri) wFri "2024-04-07T09:00" wSun
    (by with_unfolding_all rfl) (by with_unfolding_all rfl) (by with_unfolding_all rfl)

/-- C7: `_standardise_datestring` fails, with the message naming the
expected format, exactly when the text does not match the format regex
(`lexYmdHM s = none`) or the matched fields encode an impossible
date/time (`validFields f = false`); on success the returned instant has
zero second and sub-second components. -/
theorem standardise_format_spec (h : CallHandler) (s : String) :
    ((standardise_datestring h s).2
        = .error (.formatError
            ("Bad date: " ++ s ++ "\n Did you use format: " ++ expected_form)) ↔
      (lexYmdHM s = none ∨ ∃ f, lexYmdHM s = some f ∧ validFields f = false)) ∧
    (∀ d, (standardise_datestring h s).2 = .ok d → d.second = 0 ∧ d.usec = 0) := by
  constructor
  · cases hl : lexYmdHM s with
    | none => simp [standardise_datestring, strptimeYmdHM, hl]
    | some f =>
      cases hv : validFields f with
      | true => simp [standardise_datestring, strptimeYmdHM, hl, hv]
      | false => simp [standardise_datestring, strptimeYmdHM, hl, hv]
  · intro d hd
    cases hl : lexYmdHM s with
    | none => simp [standardise_datestring, strptimeYmdHM, hl] at hd
    | some f =>
      cases hv : validFields f with
      | true =>
          simp [standardise_datestring, strptimeYmdHM, hl, hv] at hd
          exact hd ▸ ⟨rfl, rfl⟩
      | false => simp [standardise_datestring, strptimeYmdHM, hl, hv] at hd

/-- C7 witness: the spec example `"2025-01-32T25:60"` does not match the
format regex and the parse step fails with the format error naming the
expected format. -/
theorem standardise_format_spec_witness :
    (standardise_datestring (CallHandler.init wNow) "2025-01-32T25:60").2
      = .error (.formatError
          ("Bad date: " ++ "2025-01-32T25:60" ++ "\n Did you use format: " ++ expected_form)) :=
  (standardise_format_spec (CallHandler.init wNow) "2025-01-32T25:60").1.mpr
    (Or.inl (by with_unfolding_all rfl))

/-- C8: `_standardise_datestring` is deterministic and side-effect free:
it returns the handler state unchanged, and calling it again on the state
it returned, with the same text, yields the same result (so two parses of
the same valid text give equal instants). -/
theorem standardise_deterministic (h : CallHandler) (s : String) :
    (standardise_datestring h s).1 = h ∧
    (standardise_datestring ((standardise_datestring h s).1) s).2
      = (standardise_datestring h s).2 :=
  ⟨rfl, rfl⟩

/-- C9: when the parse step fails, `request_callback` leaves the handler
state exactly as it was (no field assignment has run yet), prints nothing
and propagates the parse error. -/
theorem request_callback_parse_failure_frame (h : CallHandler) (now_clock : DT)
    (s : String) (e : CallErr)
    (hfail : (standardise_datestring h s).2 = .error e) :
    request_callback h now_clock s = (h, [], .error e) := by
  have hpair : standardise_datestring h s = (h, Except.error e) := by
    rw [← hfail]
    rfl
  simp only [request_callback, hpair]

/-- C9 witness: the malformed input `"31/12/2025 09:00"` fails to parse
and the call returns the constructed handler untouched. -/
theorem request_callback_parse_failure_frame_witness :
    request_callback (CallHandler.init wNow) wNow "31/12/2025 09:00"
      = (CallHandler.init wNow, [],
         .error (.formatError
           ("Bad date: " ++ "31/12/2025 09:00" ++ "\n Did you use format: " ++ expected_form))) :=
  request_callback_parse_failure_frame (CallHandler.init wNow) wNow "31/12/2025 09:00" _
    (by with_unfolding_all rfl)

/-- C10: the two check methods write no handler field (their results
depend only on the fields they read: `current_time` and `office_hours` for
the window check, `office_hours` alone for the hours check),
`office_hours` is preserved by every operation, and when the parse
succeeds all state mutation of `request_callback` (setting `current_time`
and `callback_time`) has happened before either check runs, whether the
checks pass or fail. -/
theorem frame_conditions (h h1 h2 : CallHandler) (now_clock : DT) (s : String)
    (standard_date t : DT) (min_hours max_hours : ℚ) :
    ((request_callback h now_clock s).1.office_hours = h.office_hours) ∧
    ((standardise_datestring h s).1 = h) ∧
    (strptimeYmdHM s = some standard_date →
      (request_callback h now_clock s).1
        = { h with current_time := now_clock, callback_time := standard_date }) ∧
    (h1.current_time = h2.current_time → h1.office_hours = h2.office_hours →
      is_during_accepted_window h1 t min_hours max_hours
        = is_during_accepted_window h2 t min_hours max_hours) ∧
    (h1.office_hours = h2.office_hours →
      is_during_work_hours h1 t = is_during_work_hours h2 t) := by
  have hstate : ∀ d0, strptimeYmdHM s = some d0 →
      (request_callback h now_clock s).1
        = { h with current_time := now_clock, callback_time := d0 } := by
    intro d0 hp
    simp only [request_callback, standardise_datestring, hp]
    cases hw : is_during_accepted_window
        { h with current_time := now_clock, callback_time := d0 } d0 2 144 with
    | error e => simp [hw]
    | ok u =>
      cases hh : is_during_work_hours
          { h with current_time := now_clock, callback_time := d0 } d0 with
      | error e => simp [hw, hh]
      | ok v => simp [hw, hh]
  refine ⟨?_, rfl, fun hp => hstate standard_date hp, fun hc ho => ?_, fun ho => ?_⟩
  · cases hp : strptimeYmdHM s with
    | none =>
      have : request_callback h now_clock s
          = (h, [], .error (.formatError
              ("Bad date: " ++ s ++ "\n Did you use format: " ++ expected_form))) := by
        simp only [request_callback, standardise_datestring, hp]
      rw [this]
    | some d0 => rw [hstate d0 hp]
  · simp only [is_during_accepted_window, n_hols, date_range_len, elapsed_usecs]
    rw [hc, ho]
  · simp only [is_during_work_hours]
    rw [ho]

/-- C10 witness: concrete instance of the mutation-before-checks clause,
applied at the Monday-noon clock and a successfully parsed request. -/
theorem frame_conditions_witness :
    (request_callback (CallHandler.init wNow) wNow "2024-04-02T12:00").1
      = { CallHandler.init wNow with current_time := wNow, callback_time := wTue } :=
  (frame_conditions (CallHandler.init wNow) (CallHandler.init wNow) (CallHandler.init wNow)
    wNow "2024-04-02T12:00" wTue wTue 2 144).2.2.1 (by with_unfolding_all rfl)
